import Mathlib

/-!
Verification of the BLE Wi-Fi provisioning server (`src/GATT/server.py`).

The embedding models the provisioning core: the authorization gate
(`write_auth`), credential intake and coordination (`write_wifi_credentials`),
the connection attempter (`try_connect_wifi`), the profile cleaner
(`forget_saved_wifi_profiles`) and the interface selector
(`_detect_wifi_iface`).

External subprocess invocations (`subprocess.run` on `nmcli`) are modelled by
an environment `Env : Cmd → RunOutcome` mapping each issued command (argument
vector plus bounded timeout, in seconds) to its outcome: a completed process
(return code, stdout, stderr) or an exceptional termination
(`subprocess.TimeoutExpired`, `FileNotFoundError`, or any other exception).
Every embedded operation additionally returns the list of commands it issued,
in order, so that theorems can speak about which external operations ran.
Python exception message texts are abstracted (only their presence, and the
prefixes the code itself adds, matter to the spec).
-/

/-- An external command: the argument vector passed to `subprocess.run`
together with the bounded timeout in seconds. -/
structure Cmd where
  args : List String
  timeoutS : Nat
deriving DecidableEq, Repr

/-- Outcome of one `subprocess.run` call: a completed process with return
code, stdout and stderr, or an exceptional termination. -/
inductive RunOutcome where
  | ok (returncode : Int) (stdout stderr : String)
  | timedOut
  | fileNotFound
  | exc (msg : String)
deriving DecidableEq, Repr

/-- The network subsystem, as a deterministic oracle from commands to
outcomes. -/
def Env := Cmd → RunOutcome

/-- The Python exception text carried by an exceptional outcome, `none` for a
completed process. -/
def excText : RunOutcome → Option String
  | .ok _ _ _ => none
  | .timedOut => some "TimeoutExpired"
  | .fileNotFound => some "FileNotFoundError"
  | .exc m => some m

/-- The stdout of a completed process, `""` for an exceptional outcome. -/
def stdoutOf : RunOutcome → String
  | .ok _ o _ => o
  | _ => ""

instance instDecEqExcept {ε α : Type} [DecidableEq ε] [DecidableEq α] :
    DecidableEq (Except ε α)
  | .error e, .error f =>
    if h : e = f then .isTrue (by rw [h])
    else .isFalse (fun hh => h (by cases hh; rfl))
  | .error _, .ok _ => .isFalse (fun hh => Except.noConfusion hh)
  | .ok _, .error _ => .isFalse (fun hh => Except.noConfusion hh)
  | .ok a, .ok b =>
    if h : a = b then .isTrue (by rw [h])
    else .isFalse (fun hh => h (by cases hh; rfl))

/-- A Python value as produced by `json.loads` (JSON `null` becomes Python
`None`). Numbers are modelled as integers; the claims never depend on
floats. -/
inductive PyVal where
  | str (s : String)
  | pynone
  | int (n : Int)
  | bool (b : Bool)
  | list (xs : List PyVal)
  | dict (fields : List (String × PyVal))

/-- Python truthiness (`if not x`). -/
def pyTruthy : PyVal → Bool
  | .str s => s != ""
  | .pynone => false
  | .int n => n != 0
  | .bool b => b
  | .list xs => !xs.isEmpty
  | .dict fs => !fs.isEmpty

/-- Python `==` between an arbitrary value and a `str`: equal exactly when the
value is that string (comparison of a string with a non-string is `False`). -/
def pyEqStr : PyVal → String → Bool
  | .str s, t => s == t
  | _, _ => false

/-- Python `dict.get(k)`: the value stored under `k`, or `None` when absent.
The association list represents a Python dict, so keys are unique; the first
binding wins. -/
def dictGet (fs : List (String × PyVal)) (k : String) : PyVal :=
  match fs.find? (fun p => p.1 == k) with
  | some p => p.2
  | none => .pynone

/-- The Python type name of a value, as it appears in an `AttributeError`. -/
def pyTypeName : PyVal → String
  | .str _ => "str"
  | .pynone => "NoneType"
  | .int _ => "int"
  | .bool _ => "bool"
  | .list _ => "list"
  | .dict _ => "dict"

/-- Truthiness of the optional interface argument (`if not wifi_iface`). -/
def optTruthy : Option String → Bool
  | none => false
  | some s => s != ""

/-- Whitespace for Python `str.strip()` / `str.isspace()`. -/
def pyIsSpace (c : Char) : Bool :=
  c.toNat = 0x09 || c.toNat = 0x0A || c.toNat = 0x0B || c.toNat = 0x0C ||
  c.toNat = 0x0D || c.toNat = 0x1C || c.toNat = 0x1D || c.toNat = 0x1E ||
  c.toNat = 0x1F || c.toNat = 0x20 || c.toNat = 0x85 || c.toNat = 0xA0 ||
  c.toNat = 0x1680 || (0x2000 ≤ c.toNat && c.toNat ≤ 0x200A) ||
  c.toNat = 0x2028 || c.toNat = 0x2029 || c.toNat = 0x202F ||
  c.toNat = 0x205F || c.toNat = 0x3000

/-- Python `str.strip()` on a character list. -/
def pyStripList (l : List Char) : List Char :=
  ((l.dropWhile pyIsSpace).reverse.dropWhile pyIsSpace).reverse

/-- Python `str.strip()`. -/
def pyStrip (s : String) : String := ⟨pyStripList s.data⟩

/-- Python `str.splitlines()`, recognising `\n`, `\r\n` and `\r` terminators
and not producing a trailing empty line. -/
def splitlinesAux (cur : List Char) : List Char → List (List Char)
  | [] => if cur.isEmpty then [] else [cur.reverse]
  | '\r' :: '\n' :: rest => cur.reverse :: splitlinesAux [] rest
  | '\n' :: rest => cur.reverse :: splitlinesAux [] rest
  | '\r' :: rest => cur.reverse :: splitlinesAux [] rest
  | c :: rest => splitlinesAux (c :: cur) rest

/-- Python `str.splitlines()`. -/
def splitlines (s : String) : List String :=
  (splitlinesAux [] s.data).map (fun l => ⟨l⟩)

/-- Splitting a character list on a separator character (Python
`str.split(sep)` with a one-character separator). -/
def splitCharAux (sep : Char) (cur : List Char) : List Char → List (List Char)
  | [] => [cur.reverse]
  | c :: rest =>
    if c = sep then cur.reverse :: splitCharAux sep [] rest
    else splitCharAux sep (c :: cur) rest

/-- Python `s.split(sep)` for a one-character separator. -/
def splitChar (sep : Char) (s : String) : List String :=
  (splitCharAux sep [] s.data).map (fun l => ⟨l⟩)

/-- Joining with `":"` (used to reassemble the tail of a bounded split). -/
def joinColon : List String → String
  | [] => ""
  | [x] => x
  | x :: xs => x ++ ":" ++ joinColon xs

/-- Python `ln.split(":", 2)` unpacked into exactly three parts; `none` when
the unpacking would raise `ValueError` (fewer than three parts). -/
def split2Colon (ln : String) : Option (String × String × String) :=
  match splitChar ':' ln with
  | a :: b :: c :: rest => some (a, b, joinColon (c :: rest))
  | _ => none

/-- Python `a or b or d` on strings: the first non-empty one. -/
def firstNonEmpty (a b d : String) : String :=
  if a != "" then a else if b != "" then b else d

/-- Whether `needle` occurs as a contiguous sublist. -/
def hasSubList (needle : List Char) : List Char → Bool
  | [] => needle.isEmpty
  | c :: cs => needle.isPrefixOf (c :: cs) || hasSubList needle cs

/-- Python `needle in hay` on strings: substring containment. -/
def strHasSub (hay needle : String) : Bool :=
  hasSubList needle.data hay.data

/-- The replacement character U+FFFD. -/
def replChar : Char := Char.ofNat 0xFFFD

/-- Whether a byte is a UTF-8 continuation byte (`0x80..0xBF`). -/
def isCont (b : Nat) : Bool := 0x80 ≤ b && b ≤ 0xBF

/-- Valid second bytes of a three-byte UTF-8 sequence headed by `b`
(excluding overlong forms and surrogates, as CPython does). -/
def cont2ok3 (b b2 : Nat) : Bool :=
  if b = 0xE0 then 0xA0 ≤ b2 && b2 ≤ 0xBF
  else if b = 0xED then 0x80 ≤ b2 && b2 ≤ 0x9F
  else isCont b2

/-- Valid second bytes of a four-byte UTF-8 sequence headed by `b`. -/
def cont2ok4 (b b2 : Nat) : Bool :=
  if b = 0xF0 then 0x90 ≤ b2 && b2 ≤ 0xBF
  else if b = 0xF4 then 0x80 ≤ b2 && b2 ≤ 0x8F
  else isCont b2

/-- One pass of the lossy UTF-8 decoder, with explicit fuel: each step
consumes at least one byte, so any fuel at least the length of the byte list
gives the untruncated decoding. Fuel makes the recursion structural, hence
kernel-computable. -/
def utf8Go : Nat → List Nat → List Char
  | _, [] => []
  | 0, _ :: _ => []
  | fuel + 1, b :: rest =>
    if b < 0x80 then Char.ofNat b :: utf8Go fuel rest
    else if 0xC2 ≤ b && b ≤ 0xDF then
      match rest with
      | [] => [replChar]
      | b2 :: rest2 =>
        if isCont b2 then
          Char.ofNat ((b - 0xC0) * 64 + (b2 - 0x80)) :: utf8Go fuel rest2
        else replChar :: utf8Go fuel (b2 :: rest2)
    else if 0xE0 ≤ b && b ≤ 0xEF then
      match rest with
      | [] => [replChar]
      | b2 :: rest2 =>
        if cont2ok3 b b2 then
          match rest2 with
          | [] => [replChar]
          | b3 :: rest3 =>
            if isCont b3 then
              Char.ofNat ((b - 0xE0) * 4096 + (b2 - 0x80) * 64 + (b3 - 0x80)) ::
                utf8Go fuel rest3
            else replChar :: utf8Go fuel (b3 :: rest3)
        else replChar :: utf8Go fuel (b2 :: rest2)
    else if 0xF0 ≤ b && b ≤ 0xF4 then
      match rest with
      | [] => [replChar]
      | b2 :: rest2 =>
        if cont2ok4 b b2 then
          match rest2 with
          | [] => [replChar]
          | b3 :: rest3 =>
            if isCont b3 then
              match rest3 with
              | [] => [replChar]
              | b4 :: rest4 =>
                if isCont b4 then
                  Char.ofNat ((b - 0xF0) * 262144 + (b2 - 0x80) * 4096 +
                      (b3 - 0x80) * 64 + (b4 - 0x80)) :: utf8Go fuel rest4
                else replChar :: utf8Go fuel (b4 :: rest4)
            else replChar :: utf8Go fuel (b3 :: rest3)
        else replChar :: utf8Go fuel (b2 :: rest2)
    else replChar :: utf8Go fuel rest

/-- Python `bytes.decode("utf-8", errors="replace")`: lossy UTF-8 decoding
that never raises, substituting one U+FFFD per maximal invalid subpart, as
CPython does. -/
def utf8DecodeReplace (l : List Nat) : List Char := utf8Go l.length l

/-!
## The hub state

`server.py` keeps the provisioning state in closure variables
(`wifi_credentials`, `wifi_status`, `is_authorized`); we collect the fields
the protocol reads and writes into one record.
-/

/-- The mutable hub state: stored credentials, last connection outcome, and
the authorization flag. -/
structure HubState where
  cred_ssid : PyVal
  cred_password : PyVal
  status_success : Option Bool
  status_reason : String
  is_authorized : Bool

/-- The state at process start (`server.py` lines 35-37). -/
def initState : HubState :=
  { cred_ssid := .pynone
    cred_password := .pynone
    status_success := none
    status_reason := "not attempted"
    is_authorized := false }

/-!
## Commands issued by the orchestration code
-/

/-- `nmcli -t -f DEVICE,TYPE,STATE dev`, timeout 10. -/
def devEnumCmd : Cmd := ⟨["nmcli", "-t", "-f", "DEVICE,TYPE,STATE", "dev"], 10⟩

/-- `nmcli -t -f NAME,UUID,TYPE con show`, timeout 10. -/
def conShowCmd : Cmd := ⟨["nmcli", "-t", "-f", "NAME,UUID,TYPE", "con", "show"], 10⟩

/-- `nmcli -g 802-11-wireless.ssid con show <uuid>`, timeout 10. -/
def ssidQueryCmd (uuid : String) : Cmd :=
  ⟨["nmcli", "-g", "802-11-wireless.ssid", "con", "show", uuid], 10⟩

/-- `nmcli con delete <id>`, timeout 10. -/
def conDeleteCmd (u : String) : Cmd := ⟨["nmcli", "con", "delete", u], 10⟩

/-- `nmcli radio wifi on`, timeout 10. -/
def radioOnCmd : Cmd := ⟨["nmcli", "radio", "wifi", "on"], 10⟩

/-- `nmcli dev wifi rescan ifname <iface>`, timeout 15. -/
def rescanCmd (iface : String) : Cmd :=
  ⟨["nmcli", "dev", "wifi", "rescan", "ifname", iface], 15⟩

/-- `nmcli -t -f SSID dev wifi list ifname <iface>`, timeout 15. -/
def wifiListCmd (iface : String) : Cmd :=
  ⟨["nmcli", "-t", "-f", "SSID", "dev", "wifi", "list", "ifname", iface], 15⟩

/-- The direct connect command, bounded by `timeout_s`; the password argument
is appended exactly when the password is non-empty. -/
def connectCmd (ssid iface pw : String) (t : Nat) : Cmd :=
  ⟨["nmcli", "dev", "wifi", "connect", ssid, "ifname", iface] ++
    (if pw != "" then ["password", pw] else []), t⟩

/-- The deterministic fallback profile name `bleprov-<ssid>`. -/
def profileName (ssid : String) : String := "bleprov-" ++ ssid

/-- `nmcli con add type wifi ifname <iface> con-name <n> ssid <ssid>`,
timeout 15. -/
def conAddCmd (iface nm ssid : String) : Cmd :=
  ⟨["nmcli", "con", "add", "type", "wifi", "ifname", iface, "con-name", nm,
    "ssid", ssid], 15⟩

/-- `nmcli con modify <n> wifi.hidden yes`, timeout 10. -/
def hiddenCmd (nm : String) : Cmd :=
  ⟨["nmcli", "con", "modify", nm, "wifi.hidden", "yes"], 10⟩

/-- `nmcli con modify <n> wifi-sec.key-mgmt wpa-psk`, timeout 10. -/
def keyMgmtCmd (nm : String) : Cmd :=
  ⟨["nmcli", "con", "modify", nm, "wifi-sec.key-mgmt", "wpa-psk"], 10⟩

/-- `nmcli con modify <n> wifi-sec.psk <pw>`, timeout 10. -/
def pskCmd (nm pw : String) : Cmd :=
  ⟨["nmcli", "con", "modify", nm, "wifi-sec.psk", pw], 10⟩

/-- `nmcli con up <n>`, timeout 30. -/
def conUpCmd (nm : String) : Cmd := ⟨["nmcli", "con", "up", nm], 30⟩

/-!
## Interface Selector (`_detect_wifi_iface`, lines 51-72)
-/

/-- The wifi devices parsed from the enumeration stdout: the lines with at
least three `:`-separated fields whose second field is `wifi`, as
`(device, state)` pairs in listing order. -/
def wifiDevsOf (out : String) : List (String × String) :=
  (splitlines out).filterMap fun ln =>
    match splitChar ':' ln with
    | p0 :: p1 :: p2 :: _ => if p1 == "wifi" then some (p0, p2) else none
    | _ => none

/-- `_detect_wifi_iface`: enumerate devices, filter to wifi, prefer a
connected one, else the first; `None` when the enumeration fails (non-zero
exit or exception) or no wifi device is listed. -/
def detect_wifi_iface (env : Env) : Option String × List Cmd :=
  match env devEnumCmd with
  | .ok rc out _ =>
    if rc != 0 then (none, [devEnumCmd])
    else
      match wifiDevsOf out with
      | [] => (none, [devEnumCmd])
      | d :: ds =>
        match (d :: ds).find? (fun p => p.2 == "connected") with
        | some p => (some p.1, [devEnumCmd])
        | none => (some d.1, [devEnumCmd])
  | _ => (none, [devEnumCmd])

/-!
## Profile Cleaner (`forget_saved_wifi_profiles`, lines 74-108)

The per-line `try` in the source only guards the 3-way unpacking
(`ValueError` → `continue`); an exception raised by the per-profile SSID
query or by the delete call propagates out of the function, which the
`Except.error` result models. The delete call's return code is ignored and
the counter is incremented regardless.
-/

def forgetLoop (env : Env) (ssid : PyVal) : List String → Except String Nat × List Cmd
  | [] => (.ok 0, [])
  | ln :: rest =>
    match split2Colon ln with
    | none => forgetLoop env ssid rest
    | some (_, uuid, ctype) =>
      if ctype != "802-11-wireless" then forgetLoop env ssid rest
      else
        match env (ssidQueryCmd uuid) with
        | .ok _ qout _ =>
          if pyEqStr ssid (pyStrip qout) then
            match env (conDeleteCmd uuid) with
            | .ok _ _ _ =>
              let r := forgetLoop env ssid rest
              (r.1.map (· + 1), ssidQueryCmd uuid :: conDeleteCmd uuid :: r.2)
            | o =>
              (.error ((excText o).getD ""), [ssidQueryCmd uuid, conDeleteCmd uuid])
          else
            let r := forgetLoop env ssid rest
            (r.1, ssidQueryCmd uuid :: r.2)
        | o => (.error ((excText o).getD ""), [ssidQueryCmd uuid])

/-- `forget_saved_wifi_profiles(ssid)`. -/
def forget_saved_wifi_profiles (env : Env) (ssid : PyVal) :
    Except String Nat × List Cmd :=
  if !pyTruthy ssid then (.ok 0, [])
  else
    match env conShowCmd with
    | .ok rc out _ =>
      if rc != 0 then (.ok 0, [conShowCmd])
      else
        let r := forgetLoop env ssid (splitlines out)
        (r.1, conShowCmd :: r.2)
    | o => (.error ((excText o).getD ""), [conShowCmd])

/-!
## Connection Attempter (`try_connect_wifi`, lines 110-223)

The fallback's `nmcli con add` / `con modify` / `con up` calls are not
wrapped in `try` in the source, so an exceptional outcome there propagates
out of `try_connect_wifi` (modelled by `Except.error`); the pre-delete of the
fallback profile and the steps before the direct attempt swallow exceptions.
`subprocess.run` raises `TypeError` (caught by the generic handler) when the
ssid or appended password is not a string.
-/

/-- The message of the `TypeError` raised by `subprocess.run` on a non-string
argument (abstracted text). -/
def nonStrArgMsg : String := "expected str instance"

def fallbackUp (env : Env) (iface nm msg : String) (tr : List Cmd) :
    Except String (Bool × String) × List Cmd :=
  match env (conUpCmd nm) with
  | .ok urc uout uerr =>
    if urc == 0 then
      (.ok (true, "connected (profile) via " ++ iface), tr ++ [conUpCmd nm])
    else
      (.ok (false, pyStrip (firstNonEmpty uerr uout msg)), tr ++ [conUpCmd nm])
  | o => (.error ((excText o).getD ""), tr ++ [conUpCmd nm])

def fallbackSecurity (env : Env) (iface nm pw msg : String) (tr : List Cmd) :
    Except String (Bool × String) × List Cmd :=
  if pw != "" then
    match env (keyMgmtCmd nm) with
    | .ok _ _ _ =>
      match env (pskCmd nm pw) with
      | .ok _ _ _ => fallbackUp env iface nm msg (tr ++ [keyMgmtCmd nm, pskCmd nm pw])
      | o => (.error ((excText o).getD ""), tr ++ [keyMgmtCmd nm, pskCmd nm pw])
    | o => (.error ((excText o).getD ""), tr ++ [keyMgmtCmd nm])
  else fallbackUp env iface nm msg tr

/-- The fallback profile path (lines 193-221): delete any profile named
`bleprov-<ssid>` ignoring errors, add a profile bound to the interface, mark
it hidden, set wpa-psk security exactly when the password is non-empty, and
bring the profile up. -/
def fallbackConnect (env : Env) (iface ssid pw msg : String) :
    Except String (Bool × String) × List Cmd :=
  let nm := profileName ssid
  match env (conAddCmd iface nm ssid) with
  | .ok arc aout aerr =>
    if arc != 0 then
      (.ok (false, pyStrip (firstNonEmpty aerr aout msg)),
        [conDeleteCmd nm, conAddCmd iface nm ssid])
    else
      match env (hiddenCmd nm) with
      | .ok _ _ _ =>
        fallbackSecurity env iface nm pw msg
          [conDeleteCmd nm, conAddCmd iface nm ssid, hiddenCmd nm]
      | o =>
        (.error ((excText o).getD ""),
          [conDeleteCmd nm, conAddCmd iface nm ssid, hiddenCmd nm])
  | o => (.error ((excText o).getD ""), [conDeleteCmd nm, conAddCmd iface nm ssid])

/-- The direct connect attempt (lines 173-223) and, on a plain failure whose
message mentions a missing network or when the ssid was not visible, the
fallback path. -/
def directConnect (env : Env) (ssid password : PyVal) (iface : String)
    (visible : Bool) (timeout_s : Nat) (tr : List Cmd) :
    Except String (Bool × String) × List Cmd :=
  match ssid, password with
  | .str s, .str p =>
    let c := connectCmd s iface p timeout_s
    match env c with
    | .timedOut => (.ok (false, "timeout"), tr ++ [c])
    | .fileNotFound =>
      (.ok (false, "nmcli not found (NetworkManager not installed)"), tr ++ [c])
    | .exc m => (.ok (false, "exception: " ++ m), tr ++ [c])
    | .ok rc out err =>
      if rc == 0 then (.ok (true, "connected via " ++ iface), tr ++ [c])
      else
        let msg := pyStrip (firstNonEmpty err out "nmcli connect failed")
        if strHasSub msg "No network with SSID" || !visible then
          let fb := fallbackConnect env iface s p msg
          (fb.1, tr ++ [c] ++ fb.2)
        else (.ok (false, msg), tr ++ [c])
  | _, _ => (.ok (false, "exception: " ++ nonStrArgMsg), tr)

/-- `try_connect_wifi(ssid, password, wifi_iface, timeout_s)`. -/
def try_connect_wifi (env : Env) (ssid password : PyVal)
    (wifi_iface : Option String) (timeout_s : Nat) :
    Except String (Bool × String) × List Cmd :=
  if !pyTruthy ssid then (.ok (false, "missing ssid"), [])
  else
    let password := match password with
      | .pynone => PyVal.str ""
      | p => p
    let ifr := if optTruthy wifi_iface then (wifi_iface, ([] : List Cmd))
               else detect_wifi_iface env
    if !optTruthy ifr.1 then
      (.ok (false, "no wifi interface found (nmcli dev shows no TYPE=wifi)"), ifr.2)
    else
      let iface := ifr.1.getD ""
      let fr := forget_saved_wifi_profiles env ssid
      let visible :=
        match env (wifiListCmd iface) with
        | .ok lrc lout _ =>
          if lrc == 0 then (splitlines lout).any (fun l => pyEqStr ssid l)
          else false
        | _ => false
      let tr := ifr.2 ++ [radioOnCmd, rescanCmd iface] ++ fr.2 ++ [wifiListCmd iface]
      directConnect env ssid password iface visible timeout_s tr

/-!
## Coordinator callbacks (`write_auth` lines 245-258,
`write_wifi_credentials` lines 260-301)
-/

/-- `write_auth`: lossy-decode the payload, trim surrounding whitespace, and
set the authorization flag to the result of the exact comparison with the
expected token. -/
def write_auth (expectedToken : String) (payload : List Nat) (s : HubState) :
    HubState :=
  { s with is_authorized := pyStrip ⟨utf8DecodeReplace payload⟩ == expectedToken }

/-- The credential payload after strict UTF-8 decoding and `json.loads`,
abstracted to the three outcomes the handler distinguishes: a
`UnicodeDecodeError`, a `json.JSONDecodeError`, or a decoded Python value. -/
inductive Payload where
  | undecodable (e : String)
  | badJson (e : String)
  | val (v : PyVal)

/-- `write_wifi_credentials`: reject when unauthorized; decode and parse the
payload; store the credentials and run the connection attempt; every
exception in the `try` block (decode, parse, the `AttributeError` of `.get`
on a non-dict, or one escaping `try_connect_wifi`) records an
`invalid json: ...` outcome. `wifi_iface_cli` is the `--wifi-iface` argument
(line 284: `args.wifi_iface.strip() or None`). -/
def write_wifi_credentials (env : Env) (payload : Payload)
    (wifi_iface_cli : String) (s : HubState) : HubState × List Cmd :=
  if !s.is_authorized then
    ({ s with status_success := some false, status_reason := "not authorized" }, [])
  else
    match payload with
    | .undecodable e =>
      ({ s with
          status_success := some false
          status_reason := "invalid json: " ++ e }, [])
    | .badJson e =>
      ({ s with
          status_success := some false
          status_reason := "invalid json: " ++ e }, [])
    | .val v =>
      match v with
      | .dict fs =>
        let ssid := dictGet fs "ssid"
        let pw := dictGet fs "password"
        let s1 := { s with cred_ssid := ssid, cred_password := pw }
        let ifaceArg := if pyStrip wifi_iface_cli == "" then none
                        else some (pyStrip wifi_iface_cli)
        let r := try_connect_wifi env ssid pw ifaceArg 35
        match r.1 with
        | .ok res =>
          ({ s1 with status_success := some res.1, status_reason := res.2 }, r.2)
        | .error e =>
          ({ s1 with
              status_success := some false
              status_reason := "invalid json: " ++ e }, r.2)
      | v' =>
        ({ s with
            status_success := some false
            status_reason :=
              "invalid json: " ++ pyTypeName v' ++ " object has no attribute get" },
          [])

/-!
## Derived observations used by the specification theorems
-/

/-- Whether a Python value is a dict (has the `.get` method). -/
def PyVal.isDict : PyVal → Bool
  | .dict _ => true
  | _ => false

/-- Whether the decode/parse of the credential payload raised. -/
def Payload.parseFailed : Payload → Bool
  | .undecodable _ => true
  | .badJson _ => true
  | .val _ => false

/-- Whether `s` starts with `p`. -/
def strStartsWith (s p : String) : Bool := p.data.isPrefixOf s.data

/-- The failure message of the direct connect attempt
(`(res.stderr or res.stdout or "nmcli connect failed").strip()`). -/
def directMsg (err out : String) : String :=
  pyStrip (firstNonEmpty err out "nmcli connect failed")

/-- The condition under which the failed direct attempt falls back to the
explicit-profile path. -/
def fallbackTriggered (msg : String) (visible : Bool) : Bool :=
  strHasSub msg "No network with SSID" || !visible

/-- Whether a command is a profile deletion (`nmcli con delete ...`). -/
def isDeleteCmd (c : Cmd) : Bool :=
  match c.args with
  | "nmcli" :: "con" :: "delete" :: _ => true
  | _ => false

/-- The profiles a trace attempted to delete, in order. -/
def deleteTargets (tr : List Cmd) : List String :=
  tr.filterMap fun c =>
    match c.args with
    | ["nmcli", "con", "delete", u] => some u
    | _ => none

/-- The number of delete commands in a trace that completed with exit code 0,
i.e. the profiles actually deleted. -/
def successfulDeleteCount (env : Env) (tr : List Cmd) : Nat :=
  (tr.filter fun c =>
    isDeleteCmd c && match env c with | .ok 0 _ _ => true | _ => false).length

/-- The uuids of the enumerated profiles that are eligible for deletion:
wifi-kind, and their individually queried stored SSID equals the target. -/
def matchedUuidsOfLines (env : Env) (ssid : String) (lines : List String) :
    List String :=
  lines.filterMap fun ln =>
    match split2Colon ln with
    | some (_, uuid, ctype) =>
      if ctype == "802-11-wireless" &&
          ssid == pyStrip (stdoutOf (env (ssidQueryCmd uuid))) then some uuid
      else none
    | none => none

/-- The deletion-eligible profiles of an enumeration stdout. -/
def matchedProfileUuids (env : Env) (ssid : String) (out : String) : List String :=
  matchedUuidsOfLines env ssid (splitlines out)

/-!
## Concrete states and environments for witnesses and counterexamples
-/

/-- The hub state after a successful authorization. -/
def authState : HubState := { initState with is_authorized := true }

/-- An environment in which every command completes successfully with empty
output. -/
def okEnv : Env := fun _ => .ok 0 "" ""

/-- An environment whose every call completes; the saved-profile listing
shows one wifi profile storing `HomeNet`, and deleting it fails with a
non-zero exit code. -/
def cexEnvForget : Env := fun c =>
  if c = conShowCmd then .ok 0 "p1:uuid-1:802-11-wireless\n" ""
  else if c = ssidQueryCmd "uuid-1" then .ok 0 "HomeNet\n" ""
  else if c = conDeleteCmd "uuid-1" then .ok 1 "" "Error: connection not deleted"
  else .ok 0 "" ""

/-- An environment driving `try_connect_wifi` into the fallback path: the
direct connect fails reporting a missing network, the ssid is not in the
scan list, and the profile fallback succeeds. -/
def cexEnvFb : Env := fun c =>
  if c = connectCmd "HomeNet" "wlan0" "pw1" 35 then
    .ok 4 "" "Error: No network with SSID"
  else if c = conShowCmd then .ok 1 "" ""
  else if c = wifiListCmd "wlan0" then .ok 0 "OtherNet\n" ""
  else .ok 0 "" ""

/-- An environment in which the interface enumeration itself raises
(`subprocess.TimeoutExpired`). -/
def cexEnvEnumFail : Env := fun _ => .timedOut

/-- An environment in which the interface enumeration succeeds but lists no
wifi-kind device. -/
def cexEnvNoWifi : Env := fun c =>
  if c = devEnumCmd then .ok 0 "eth0:ethernet:connected\n" "" else .ok 0 "" ""

/-- An environment in which the direct connect command times out and the
saved-profile listing fails benignly. -/
def cexEnvConnTimeout : Env := fun c =>
  if c = connectCmd "HomeNet" "wlan0" "pw" 35 then .timedOut
  else if c = conShowCmd then .ok 1 "" ""
  else .ok 0 "" ""

/-- An environment listing one ethernet and two wifi devices, one of the
wifi devices being connected. -/
def specEnvDetect : Env := fun c =>
  if c = devEnumCmd then
    .ok 0 "eth0:ethernet:connected\nwlan0:wifi:disconnected\nwlan1:wifi:connected\n" ""
  else .ok 0 "" ""

/-- The stdout components of `specEnvForget`. -/
def specEnvForgetOut : Cmd → String := fun c =>
  if c = conShowCmd then
    "w1:u1:802-11-wireless\nskip\nx:u2:ethernet\nw2:u3:802-11-wireless\n"
  else if c = ssidQueryCmd "u1" then "Net1\n"
  else if c = ssidQueryCmd "u3" then "Other\n"
  else ""

/-- An environment for the Profile Cleaner witness: every call completes with
exit code 0; two wifi profiles are listed, one of which stores the target
SSID. -/
def specEnvForget : Env := fun c => .ok 0 (specEnvForgetOut c) ""

/-!
## Claim theorems
-/

/-- C1: for every credential-write event delivered while the authorization
flag is false, the recorded outcome is exactly `{success: false, reason:
"not authorized"}`, and nothing else happens: the result does not depend on
the payload (so the payload is never parsed), no command is issued (empty
trace, so no network-subsystem operation runs), and the rest of the state is
untouched. -/
theorem write_wifi_credentials_unauthorized_spec (env : Env) (payload : Payload)
    (cli : String) (s : HubState) (h : s.is_authorized = false) :
    write_wifi_credentials env payload cli s =
      ({ s with status_success := some false, status_reason := "not authorized" },
        []) := by
  simp [write_wifi_credentials, h]

/-- Witness for C1 at the initial (unauthorized) state and a well-formed
payload. -/
theorem write_wifi_credentials_unauthorized_witness :
    initState.is_authorized = false ∧
      write_wifi_credentials okEnv (.val (.dict [("ssid", .str "HomeNet")]))
          "" initState =
        ({ initState with
            status_success := some false
            status_reason := "not authorized" }, []) :=
  ⟨rfl, write_wifi_credentials_unauthorized_spec okEnv _ "" initState rfl⟩

/-- C7: the Connection Attempter, given an empty ssid, returns
`{success: false, reason: "missing ssid"}` with an empty command trace: no
interface selection, and no other step, runs. -/
theorem try_connect_wifi_empty_ssid_spec (env : Env) (password : PyVal)
    (wifi_iface : Option String) (timeout_s : Nat) :
    try_connect_wifi env (.str "") password wifi_iface timeout_s =
      (.ok (false, "missing ssid"), []) := rfl

/-- C10: the profile purge, given an empty ssid, returns 0 with an empty
command trace: the saved profiles are not enumerated and nothing is
deleted. -/
theorem forget_saved_wifi_profiles_empty_ssid_spec (env : Env) :
    forget_saved_wifi_profiles env (.str "") = (.ok 0, []) := rfl

/-- C8: an auth-write sets the authorization flag to true exactly when the
payload, decoded with lossy (total, replacement-based) UTF-8 decoding and
trimmed of surrounding whitespace, equals the expected token — irrespective
of the previous state; in particular a failed write following a successful
one resets the flag to false. -/
theorem write_auth_token_compare_spec (expectedToken : String) (b : List Nat)
    (s : HubState) :
    ((write_auth expectedToken b s).is_authorized = true ↔
        pyStrip ⟨utf8DecodeReplace b⟩ = expectedToken) ∧
      (∀ b2 : List Nat, pyStrip ⟨utf8DecodeReplace b2⟩ ≠ expectedToken →
        (write_auth expectedToken b2
            (write_auth expectedToken b s)).is_authorized = false) := by
  constructor
  · simp [write_auth]
  · intro b2 h
    simp [write_auth, h]

/-- Witness for C8: the default token authorizes, and a subsequent write of
an invalid UTF-8 byte (decoded to U+FFFD, not the token) resets the flag. -/
theorem write_auth_token_compare_witness :
    pyStrip ⟨utf8DecodeReplace [0xFF]⟩ ≠ "pair-token-123" ∧
      (write_auth "pair-token-123" [0xFF]
          (write_auth "pair-token-123"
            [112, 97, 105, 114, 45, 116, 111, 107, 101, 110, 45, 49, 50, 51]
            initState)).is_authorized = false :=
  ⟨by decide,
    (write_auth_token_compare_spec "pair-token-123"
        [112, 97, 105, 114, 45, 116, 111, 107, 101, 110, 45, 49, 50, 51]
        initState).2 [0xFF] (by decide)⟩

/-- C3 counterexample: in `cexEnvForget` one enumerated wifi profile matches
the target ssid, its delete command fails (exit code 1), yet the purge
returns 1 while the number of profiles actually deleted (delete commands
that exited 0) is 0 — so the purge does not return the count of profiles
successfully deleted. -/
theorem forget_counts_failed_delete :
    (forget_saved_wifi_profiles cexEnvForget (.str "HomeNet")).1 = .ok 1 ∧
      cexEnvForget (conDeleteCmd "uuid-1") =
        .ok 1 "" "Error: connection not deleted" ∧
      successfulDeleteCount cexEnvForget
        (forget_saved_wifi_profiles cexEnvForget (.str "HomeNet")).2 = 0 ∧
      (1 : Nat) ≠ 0 := by decide

/-- C4 counterexample: an environment where the interface enumeration itself
raises and one where it succeeds listing no wifi device produce the same
`none` selection and the very same connection-attempt outcome, with the same
reason string — the enumeration failure is not surfaced as a distinct
error. -/
theorem detect_failure_modes_indistinct :
    (detect_wifi_iface cexEnvEnumFail).1 = none ∧
      (detect_wifi_iface cexEnvNoWifi).1 = none ∧
      try_connect_wifi cexEnvEnumFail (.str "HomeNet") (.str "") none 35 =
        try_connect_wifi cexEnvNoWifi (.str "HomeNet") (.str "") none 35 ∧
      (try_connect_wifi cexEnvNoWifi (.str "HomeNet") (.str "") none 35).1 =
        .ok (false, "no wifi interface found (nmcli dev shows no TYPE=wifi)") := by
  decide

/-- C5 counterexample: an authorized credential write whose payload is the
valid JSON object `{}` (no ssid) records `{success: false, reason:
"missing ssid"}` — a reason produced by the Connection Attempter, not
carrying the `invalid json: ` tag used by every parse error — with no
network command issued. -/
theorem missing_ssid_outcome_not_parse_tagged :
    (write_wifi_credentials okEnv (.val (.dict [])) "" authState).1.status_reason =
        "missing ssid" ∧
      (write_wifi_credentials okEnv (.val (.dict []))
          "" authState).1.status_success = some false ∧
      (write_wifi_credentials okEnv (.val (.dict [])) "" authState).2 = [] ∧
      strStartsWith "missing ssid" "invalid json: " = false := by decide

/-- C2 counterexample: a run reaching the successful fallback activation.
The activation command (`nmcli con up`) is bounded by 30 seconds while the
direct attempt was bounded by 35 seconds — the fallback activation timeout
is not longer than the direct attempt's. -/
theorem try_connect_fallback_timeout_not_longer :
    (try_connect_wifi cexEnvFb (.str "HomeNet") (.str "pw1") (some "wlan0") 35).1 =
        .ok (true, "connected (profile) via wlan0") ∧
      (try_connect_wifi cexEnvFb (.str "HomeNet") (.str "pw1")
          (some "wlan0") 35).2 =
        [radioOnCmd, rescanCmd "wlan0", conShowCmd, wifiListCmd "wlan0",
         connectCmd "HomeNet" "wlan0" "pw1" 35, conDeleteCmd "bleprov-HomeNet",
         conAddCmd "wlan0" "bleprov-HomeNet" "HomeNet", hiddenCmd "bleprov-HomeNet",
         keyMgmtCmd "bleprov-HomeNet", pskCmd "bleprov-HomeNet" "pw1",
         conUpCmd "bleprov-HomeNet"] ∧
      (conUpCmd "bleprov-HomeNet").timeoutS = 30 ∧
      (connectCmd "HomeNet" "wlan0" "pw1" 35).timeoutS = 35 ∧
      ¬ (connectCmd "HomeNet" "wlan0" "pw1" 35).timeoutS <
          (conUpCmd "bleprov-HomeNet").timeoutS := by decide

/-- A list is a `Bool`-valued prefix of itself followed by anything. -/
theorem isPrefixOf_append_self (l m : List Char) : l.isPrefixOf (l ++ m) = true := by
  induction l with
  | nil => simp [List.isPrefixOf]
  | cons c cs ih => simp [List.isPrefixOf, ih]

/-- C5 amended: for an authorized credential write, a payload that is not
UTF-8, not JSON, or not an object records an `invalid json: `-tagged outcome
with no command issued and without invoking the Connection Attempter (the
result is a pure state update); a payload that is an object without a
(non-empty) `ssid` is handed to the Connection Attempter, which rejects it
immediately as `{success: false, reason: "missing ssid"}` with no network
command issued — that reason does not carry the parse-error tag. Every
parse-error outcome carries the `invalid json: ` tag. -/
theorem credential_parse_gate_spec (env : Env) (cli : String) (s : HubState)
    (hauth : s.is_authorized = true) :
    (∀ e, write_wifi_credentials env (.undecodable e) cli s =
      ({ s with
          status_success := some false
          status_reason := "invalid json: " ++ e }, [])) ∧
    (∀ e, write_wifi_credentials env (.badJson e) cli s =
      ({ s with
          status_success := some false
          status_reason := "invalid json: " ++ e }, [])) ∧
    (∀ v : PyVal, v.isDict = false →
      write_wifi_credentials env (.val v) cli s =
        ({ s with
            status_success := some false
            status_reason :=
              "invalid json: " ++ pyTypeName v ++ " object has no attribute get" },
          [])) ∧
    (∀ fs, pyTruthy (dictGet fs "ssid") = false →
      write_wifi_credentials env (.val (.dict fs)) cli s =
        ({ s with
            cred_ssid := dictGet fs "ssid"
            cred_password := dictGet fs "password"
            status_success := some false
            status_reason := "missing ssid" }, [])) ∧
    (∀ e, strStartsWith ("invalid json: " ++ e) "invalid json: " = true) := by
  refine ⟨?_, ?_, ?_, ?_, ?_⟩
  · intro e; simp [write_wifi_credentials, hauth]
  · intro e; simp [write_wifi_credentials, hauth]
  · intro v hv
    cases v with
    | dict fs => simp [PyVal.isDict] at hv
    | str s' => simp [write_wifi_credentials, hauth]
    | pynone => simp [write_wifi_credentials, hauth]
    | int n => simp [write_wifi_credentials, hauth]
    | bool b => simp [write_wifi_credentials, hauth]
    | list xs => simp [write_wifi_credentials, hauth]
  · intro fs hfs
    simp [write_wifi_credentials, hauth, try_connect_wifi, hfs]
  · intro e
    simp [strStartsWith, String.data_append, isPrefixOf_append_self]

/-- Witness for C5 amended: the authorized write of the object `{}` stores
the (absent) credentials and records the attempter's immediate
`missing ssid` rejection with no command issued. -/
theorem credential_parse_gate_spec_witness :
    write_wifi_credentials okEnv (.val (.dict [])) "" authState =
      ({ authState with
          cred_ssid := dictGet [] "ssid"
          cred_password := dictGet [] "password"
          status_success := some false
          status_reason := "missing ssid" }, []) :=
  (credential_parse_gate_spec okEnv "" authState rfl).2.2.2.1 [] (by decide)

/-- C9: the stored credentials are mutated only by an authorized write whose
payload decoded to a JSON object; an unauthorized write, or one whose
payload failed to decode or parse, leaves the stored credentials unchanged
(only the status outcome changes); and no credential write ever changes the
authorization flag. -/
theorem write_wifi_credentials_frame_spec (env : Env) (p : Payload)
    (cli : String) (s : HubState) :
    (((write_wifi_credentials env p cli s).1.cred_ssid ≠ s.cred_ssid ∨
        (write_wifi_credentials env p cli s).1.cred_password ≠ s.cred_password) →
      s.is_authorized = true ∧ ∃ fs, p = .val (.dict fs)) ∧
    ((s.is_authorized = false ∨ p.parseFailed = true) →
      (write_wifi_credentials env p cli s).1.cred_ssid = s.cred_ssid ∧
        (write_wifi_credentials env p cli s).1.cred_password = s.cred_password) ∧
    ((write_wifi_credentials env p cli s).1.is_authorized = s.is_authorized) := by
  by_cases hauth : s.is_authorized
  · cases p with
    | undecodable e => simp [write_wifi_credentials, hauth, Payload.parseFailed]
    | badJson e => simp [write_wifi_credentials, hauth, Payload.parseFailed]
    | val v =>
      cases v with
      | dict fs =>
        refine ⟨fun _ => ⟨hauth, fs, rfl⟩, fun h => ?_, ?_⟩
        · rcases h with h | h
          · rw [hauth] at h; cases h
          · simp [Payload.parseFailed] at h
        · simp [write_wifi_credentials, hauth]
          split <;> simp
      | str s' => simp [write_wifi_credentials, hauth, Payload.parseFailed]
      | pynone => simp [write_wifi_credentials, hauth, Payload.parseFailed]
      | int n => simp [write_wifi_credentials, hauth, Payload.parseFailed]
      | bool b => simp [write_wifi_credentials, hauth, Payload.parseFailed]
      | list xs => simp [write_wifi_credentials, hauth, Payload.parseFailed]
  · have h' : s.is_authorized = false := by simpa using hauth
    simp [write_wifi_credentials, h']

/-- Witness for C9: an unauthorized write of a well-formed payload leaves the
stored credentials unchanged. -/
theorem write_wifi_credentials_frame_witness :
    (write_wifi_credentials okEnv (.val (.dict [("ssid", .str "HomeNet")]))
        "" initState).1.cred_ssid = initState.cred_ssid ∧
      (write_wifi_credentials okEnv (.val (.dict [("ssid", .str "HomeNet")]))
          "" initState).1.cred_password = initState.cred_password :=
  (write_wifi_credentials_frame_spec okEnv
      (.val (.dict [("ssid", .str "HomeNet")])) "" initState).2.1 (Or.inl rfl)

/-- The interface selector issues exactly one enumeration command, whatever
the environment answers. -/
theorem detect_wifi_iface_trace (env : Env) :
    (detect_wifi_iface env).2 = [devEnumCmd] := by
  unfold detect_wifi_iface
  cases h : env devEnumCmd <;> simp
  split
  all_goals try rfl
  all_goals split
  all_goals try rfl
  all_goals split
  all_goals rfl

/-- C4 amended: with no pinned interface name, selection enumerates all
interfaces and filters to wifi-kind ones; it returns the first connected one
when one exists, else the first wifi interface in listing order; it returns
no interface when the filtered set is empty — and also, indistinguishably,
when the enumeration call fails (non-zero exit or exception): no distinct
error is surfaced, and the caller reports the same `no wifi interface found`
outcome in every failure case. -/
theorem detect_wifi_iface_selection_spec (env : Env) :
    (excText (env devEnumCmd) ≠ none → (detect_wifi_iface env).1 = none) ∧
    (∀ (rc : Int) (out err : String), env devEnumCmd = .ok rc out err → rc ≠ 0 →
      (detect_wifi_iface env).1 = none) ∧
    (∀ out err, env devEnumCmd = .ok 0 out err → wifiDevsOf out = [] →
      (detect_wifi_iface env).1 = none) ∧
    (∀ out err d ds, env devEnumCmd = .ok 0 out err → wifiDevsOf out = d :: ds →
      (detect_wifi_iface env).1 =
        some ((((d :: ds).find? (fun p => p.2 == "connected")).getD d).1)) ∧
    (∀ (ssid : String) (pw : PyVal) (t : Nat), ssid ≠ "" →
      (detect_wifi_iface env).1 = none →
      try_connect_wifi env (.str ssid) pw none t =
        (.ok (false, "no wifi interface found (nmcli dev shows no TYPE=wifi)"),
          [devEnumCmd])) := by
  refine ⟨?_, ?_, ?_, ?_, ?_⟩
  · intro h
    cases ho : env devEnumCmd with
    | ok rc out err => rw [ho] at h; simp [excText] at h
    | timedOut => simp [detect_wifi_iface, ho]
    | fileNotFound => simp [detect_wifi_iface, ho]
    | exc m => simp [detect_wifi_iface, ho]
  · intro rc out err h hrc
    simp [detect_wifi_iface, h, hrc]
  · intro out err h hd
    simp [detect_wifi_iface, h, hd]
  · intro out err d ds h hd
    cases hf : (d :: ds).find? (fun p => p.2 == "connected") with
    | none => simp [detect_wifi_iface, h, hd, hf]
    | some p => simp [detect_wifi_iface, h, hd, hf]
  · intro ssid pw t hs hn
    simp [try_connect_wifi, pyTruthy, optTruthy, hs, hn, detect_wifi_iface_trace]

/-- Witness for C4 amended: with one connected and one disconnected wifi
device listed, the connected one is selected. -/
theorem detect_wifi_iface_selection_spec_witness :
    (detect_wifi_iface specEnvDetect).1 =
      some (((([("wlan0", "disconnected"), ("wlan1", "connected")]).find?
          (fun p => p.2 == "connected")).getD ("wlan0", "disconnected")).1) :=
  (detect_wifi_iface_selection_spec specEnvDetect).2.2.2.1
    "eth0:ethernet:connected\nwlan0:wifi:disconnected\nwlan1:wifi:connected\n" ""
    ("wlan0", "disconnected") [("wlan1", "connected")] (by decide) (by decide)

/-- C6: when the direct connect command times out, the attempt returns
`{success: false, reason: "timeout"}`, and when the underlying tool is
missing it returns `{success: false, reason: "nmcli not found (NetworkManager
not installed)"}`; in both cases the trace ends at the direct connect
command — no fallback command (profile delete/add/modify/activate) is
issued. -/
theorem direct_connect_exception_spec (env : Env) (ssid pw iface : String)
    (t : Nat) (hssid : ssid ≠ "") (hiface : iface ≠ "")
    (hshow : env conShowCmd = .ok 1 "" "") :
    (env (connectCmd ssid iface pw t) = .timedOut →
      try_connect_wifi env (.str ssid) (.str pw) (some iface) t =
        (.ok (false, "timeout"),
          [radioOnCmd, rescanCmd iface, conShowCmd, wifiListCmd iface,
           connectCmd ssid iface pw t])) ∧
    (env (connectCmd ssid iface pw t) = .fileNotFound →
      try_connect_wifi env (.str ssid) (.str pw) (some iface) t =
        (.ok (false, "nmcli not found (NetworkManager not installed)"),
          [radioOnCmd, rescanCmd iface, conShowCmd, wifiListCmd iface,
           connectCmd ssid iface pw t])) := by
  constructor <;> intro hconn <;>
    simp [try_connect_wifi, pyTruthy, optTruthy, hssid, hiface,
      forget_saved_wifi_profiles, hshow, directConnect, hconn]

/-- Witness for C6: a concrete environment whose direct connect times out. -/
theorem direct_connect_exception_witness :
    try_connect_wifi cexEnvConnTimeout (.str "HomeNet") (.str "pw")
        (some "wlan0") 35 =
      (.ok (false, "timeout"),
        [radioOnCmd, rescanCmd "wlan0", conShowCmd, wifiListCmd "wlan0",
         connectCmd "HomeNet" "wlan0" "pw" 35]) :=
  (direct_connect_exception_spec cexEnvConnTimeout "HomeNet" "pw" "wlan0" 35
    (by decide) (by decide) (by decide)).1 (by decide)

/-- A per-profile SSID query command is not a deletion. -/
theorem deleteTargets_query (u : String) (tr : List Cmd) :
    deleteTargets (ssidQueryCmd u :: tr) = deleteTargets tr := rfl

/-- A `nmcli con delete <uuid>` command is a deletion of `uuid`. -/
theorem deleteTargets_delete (u : String) (tr : List Cmd) :
    deleteTargets (conDeleteCmd u :: tr) = u :: deleteTargets tr := rfl

/-- The profile enumeration command is not a deletion. -/
theorem deleteTargets_show (tr : List Cmd) :
    deleteTargets (conShowCmd :: tr) = deleteTargets tr := rfl

/-- In an environment where no call raises, the purge loop returns the count
of deletion-eligible profiles (wifi-kind with matching stored SSID) and
attempts to delete exactly those, in listing order — regardless of the
delete commands' exit codes. -/
theorem forgetLoop_all_ok (env : Env) (ssid : String)
    (hok : ∀ c : Cmd, excText (env c) = none) (lines : List String) :
    (forgetLoop env (.str ssid) lines).1 =
        .ok (matchedUuidsOfLines env ssid lines).length ∧
      deleteTargets (forgetLoop env (.str ssid) lines).2 =
        matchedUuidsOfLines env ssid lines := by
  induction lines with
  | nil => simp [forgetLoop, matchedUuidsOfLines, deleteTargets]
  | cons ln rest ih =>
    cases hsp : split2Colon ln with
    | none =>
      have hfl : forgetLoop env (.str ssid) (ln :: rest) =
          forgetLoop env (.str ssid) rest := by
        simp [forgetLoop, hsp]
      have hmc : matchedUuidsOfLines env ssid (ln :: rest) =
          matchedUuidsOfLines env ssid rest := by
        simp [matchedUuidsOfLines, List.filterMap_cons, hsp]
      rw [hfl, hmc]; exact ih
    | some trip =>
      obtain ⟨nm, uuid, ctype⟩ := trip
      have hq := hok (ssidQueryCmd uuid)
      cases hqo : env (ssidQueryCmd uuid) with
      | timedOut => rw [hqo] at hq; simp [excText] at hq
      | fileNotFound => rw [hqo] at hq; simp [excText] at hq
      | exc m => rw [hqo] at hq; simp [excText] at hq
      | ok qrc qout qerr =>
        by_cases hct : ctype = "802-11-wireless"
        · subst hct
          by_cases hm : pyStrip qout = ssid
          · have hd := hok (conDeleteCmd uuid)
            cases hdo : env (conDeleteCmd uuid) with
            | timedOut => rw [hdo] at hd; simp [excText] at hd
            | fileNotFound => rw [hdo] at hd; simp [excText] at hd
            | exc m => rw [hdo] at hd; simp [excText] at hd
            | ok drc dout derr =>
              have hfl : forgetLoop env (.str ssid) (ln :: rest) =
                  ((forgetLoop env (.str ssid) rest).1.map (· + 1),
                    ssidQueryCmd uuid :: conDeleteCmd uuid ::
                      (forgetLoop env (.str ssid) rest).2) := by
                simp [forgetLoop, hsp, hqo, hdo, pyEqStr, hm]
              have hmc : matchedUuidsOfLines env ssid (ln :: rest) =
                  uuid :: matchedUuidsOfLines env ssid rest := by
                simp [matchedUuidsOfLines, List.filterMap_cons, hsp, hqo,
                  stdoutOf, hm]
              rw [hfl, hmc]
              refine ⟨?_, ?_⟩
              · simp [ih.1, Except.map]
              · rw [deleteTargets_query, deleteTargets_delete, ih.2]
          · have hfl : forgetLoop env (.str ssid) (ln :: rest) =
                ((forgetLoop env (.str ssid) rest).1,
                  ssidQueryCmd uuid :: (forgetLoop env (.str ssid) rest).2) := by
              simp [forgetLoop, hsp, hqo, pyEqStr, Ne.symm hm]
            have hmc : matchedUuidsOfLines env ssid (ln :: rest) =
                matchedUuidsOfLines env ssid rest := by
              simp [matchedUuidsOfLines, List.filterMap_cons, hsp, hqo,
                stdoutOf, Ne.symm hm]
            rw [hfl, hmc]
            exact ⟨ih.1, by rw [deleteTargets_query, ih.2]⟩
        · have hfl : forgetLoop env (.str ssid) (ln :: rest) =
              forgetLoop env (.str ssid) rest := by
            simp [forgetLoop, hsp, hct]
          have hmc : matchedUuidsOfLines env ssid (ln :: rest) =
              matchedUuidsOfLines env ssid rest := by
            simp [matchedUuidsOfLines, List.filterMap_cons, hsp, hct]
          rw [hfl, hmc]; exact ih

/-- C3 amended: in an environment where no call raises and the profile
enumeration succeeds, the purge queries each listed wifi-kind profile
individually and attempts to delete exactly those whose stored SSID equals
the target; a delete command failing with a non-zero exit code is neither
logged nor excluded: the returned count is the number of deletion attempts
(eligible profiles), not the number of successful deletions. -/
theorem forget_saved_wifi_profiles_spec (env : Env) (ssid out err : String)
    (hssid : ssid ≠ "") (henum : env conShowCmd = .ok 0 out err)
    (hok : ∀ c : Cmd, excText (env c) = none) :
    (forget_saved_wifi_profiles env (.str ssid)).1 =
        .ok (matchedProfileUuids env ssid out).length ∧
      deleteTargets (forget_saved_wifi_profiles env (.str ssid)).2 =
        matchedProfileUuids env ssid out := by
  have h := forgetLoop_all_ok env ssid hok (splitlines out)
  constructor
  · simp [forget_saved_wifi_profiles, pyTruthy, hssid, henum,
      matchedProfileUuids, h.1]
  · have htr : (forget_saved_wifi_profiles env (.str ssid)).2 =
        conShowCmd :: (forgetLoop env (.str ssid) (splitlines out)).2 := by
      simp [forget_saved_wifi_profiles, pyTruthy, hssid, henum]
    rw [htr, deleteTargets_show, h.2, matchedProfileUuids]

/-- Witness for C3 amended: two wifi profiles and one ethernet profile are
enumerated; exactly the wifi profile storing the target SSID is deleted and
counted. -/
theorem forget_saved_wifi_profiles_spec_witness :
    (forget_saved_wifi_profiles specEnvForget (.str "Net1")).1 =
        .ok (matchedProfileUuids specEnvForget "Net1"
          "w1:u1:802-11-wireless\nskip\nx:u2:ethernet\nw2:u3:802-11-wireless\n").length ∧
      deleteTargets (forget_saved_wifi_profiles specEnvForget (.str "Net1")).2 =
        matchedProfileUuids specEnvForget "Net1"
          "w1:u1:802-11-wireless\nskip\nx:u2:ethernet\nw2:u3:802-11-wireless\n" :=
  forget_saved_wifi_profiles_spec specEnvForget "Net1"
    "w1:u1:802-11-wireless\nskip\nx:u2:ethernet\nw2:u3:802-11-wireless\n" ""
    (by decide) (by decide) (fun _ => rfl)

/-- Under an environment whose fallback calls complete, the fallback path
first deletes the synthesized `bleprov-<ssid>` profile (ignoring the
result), creates the profile bound to the interface, marks it hidden, sets a
wpa-psk security mode and key exactly when the password is non-empty, and
activates it; activation exit 0 yields the profile-connected outcome. -/
theorem fallbackConnect_all_ok (env : Env) (iface ssid pw msg : String)
    (aout aerr hout herr kout kerr pout perr uout uerr : String)
    (hrcH krcH prcH : Int)
    (hadd : env (conAddCmd iface (profileName ssid) ssid) = .ok 0 aout aerr)
    (hhid : env (hiddenCmd (profileName ssid)) = .ok hrcH hout herr)
    (hkm : env (keyMgmtCmd (profileName ssid)) = .ok krcH kout kerr)
    (hpsk : env (pskCmd (profileName ssid) pw) = .ok prcH pout perr)
    (hup : env (conUpCmd (profileName ssid)) = .ok 0 uout uerr) :
    fallbackConnect env iface ssid pw msg =
      (.ok (true, "connected (profile) via " ++ iface),
        [conDeleteCmd (profileName ssid), conAddCmd iface (profileName ssid) ssid,
         hiddenCmd (profileName ssid)] ++
        (if pw == "" then [] else
          [keyMgmtCmd (profileName ssid), pskCmd (profileName ssid) pw]) ++
        [conUpCmd (profileName ssid)]) := by
  by_cases hpw : pw = "" <;>
    simp [fallbackConnect, fallbackSecurity, fallbackUp, hadd, hhid, hkm, hpsk,
      hup, hpw]

/-- C2 amended: when the direct connect attempt completes with a failing
exit code, the fallback path runs exactly when the ssid was not reported
visible or the failure message mentions a missing network; the fallback
deletes any profile named `bleprov-<ssid>` ignoring errors, creates a
profile bound to the resolved interface, marks it hidden unconditionally,
sets a pre-shared-key mode and key exactly when the password is non-empty,
and activates it with a bounded 30-second timeout — shorter than, not longer
than, the coordinator's 35-second direct-attempt timeout; on activation
success the outcome is `connected (profile) via <interface>`. When the
trigger condition fails, the attempt returns the direct failure message and
no fallback command is issued. -/
theorem try_connect_fallback_spec (env : Env) (ssid pw iface : String)
    (crc hrcH krcH prcH : Int)
    (cout cerr vout verr aout aerr hout herr kout kerr pout perr uout uerr :
      String)
    (hssid : ssid ≠ "") (hiface : iface ≠ "")
    (hshow : env conShowCmd = .ok 1 "" "")
    (hvis : env (wifiListCmd iface) = .ok 0 vout verr)
    (hconn : env (connectCmd ssid iface pw 35) = .ok crc cout cerr)
    (hcrc : crc ≠ 0)
    (hadd : env (conAddCmd iface (profileName ssid) ssid) = .ok 0 aout aerr)
    (hhid : env (hiddenCmd (profileName ssid)) = .ok hrcH hout herr)
    (hkm : env (keyMgmtCmd (profileName ssid)) = .ok krcH kout kerr)
    (hpsk : env (pskCmd (profileName ssid) pw) = .ok prcH pout perr)
    (hup : env (conUpCmd (profileName ssid)) = .ok 0 uout uerr) :
    (fallbackTriggered (directMsg cerr cout)
        ((splitlines vout).any (fun l => ssid == l)) = true →
      try_connect_wifi env (.str ssid) (.str pw) (some iface) 35 =
        (.ok (true, "connected (profile) via " ++ iface),
          [radioOnCmd, rescanCmd iface, conShowCmd, wifiListCmd iface,
           connectCmd ssid iface pw 35, conDeleteCmd (profileName ssid),
           conAddCmd iface (profileName ssid) ssid,
           hiddenCmd (profileName ssid)] ++
          (if pw == "" then [] else
            [keyMgmtCmd (profileName ssid), pskCmd (profileName ssid) pw]) ++
          [conUpCmd (profileName ssid)])) ∧
    (fallbackTriggered (directMsg cerr cout)
        ((splitlines vout).any (fun l => ssid == l)) = false →
      try_connect_wifi env (.str ssid) (.str pw) (some iface) 35 =
        (.ok (false, directMsg cerr cout),
          [radioOnCmd, rescanCmd iface, conShowCmd, wifiListCmd iface,
           connectCmd ssid iface pw 35])) := by
  have hfb := fallbackConnect_all_ok env iface ssid pw
    (pyStrip (firstNonEmpty cerr cout "nmcli connect failed"))
    aout aerr hout herr kout kerr pout perr uout uerr hrcH krcH prcH
    hadd hhid hkm hpsk hup
  constructor <;> intro hcond <;>
    simp only [fallbackTriggered, directMsg] at hcond <;>
    simp [try_connect_wifi, directConnect, pyTruthy, optTruthy, hssid, hiface,
      forget_saved_wifi_profiles, hshow, hvis, hconn, hcrc, pyEqStr, hcond,
      hfb, directMsg]

/-- Witness for C2 amended: the concrete fallback run of `cexEnvFb`. -/
theorem try_connect_fallback_spec_witness :
    try_connect_wifi cexEnvFb (.str "HomeNet") (.str "pw1") (some "wlan0") 35 =
      (.ok (true, "connected (profile) via " ++ "wlan0"),
        [radioOnCmd, rescanCmd "wlan0", conShowCmd, wifiListCmd "wlan0",
         connectCmd "HomeNet" "wlan0" "pw1" 35,
         conDeleteCmd (profileName "HomeNet"),
         conAddCmd "wlan0" (profileName "HomeNet") "HomeNet",
         hiddenCmd (profileName "HomeNet")] ++
        (if ("pw1" : String) == "" then [] else
          [keyMgmtCmd (profileName "HomeNet"),
           pskCmd (profileName "HomeNet") "pw1"]) ++
        [conUpCmd (profileName "HomeNet")]) :=
  (try_connect_fallback_spec cexEnvFb "HomeNet" "pw1" "wlan0" 4 0 0 0
    "" "Error: No network with SSID" "OtherNet\n" "" "" "" "" "" "" "" "" "" "" ""
    (by decide) (by decide) (by decide) (by decide) (by decide) (by decide)
    (by decide) (by decide) (by decide) (by decide) (by decide)).1 (by decide)
